import Mathlib

/-!
Verification of the KSA Trading backend (src/main.py, src/schemas.py).

The analysis routine (`analyze`, main.py lines 128-142) is embedded as pure
Lean functions; Python floats are modelled as rationals, which is exact here
because every numeric value the routine produces is an integer multiple of
one tenth and the double-precision rounding error (at most a few ulps of
values below 100) never crosses a comparison threshold or a one-decimal
formatting boundary.  Pydantic validation (schemas.py) is embedded as
explicit validators over input records with `Option` for defaulted fields.
The storage collaborator (`database.py`) is not part of the repository's
files and is modelled from the spec where a claim needs it.
-/

namespace KSATrading

/-- Sum of the Unicode code points of a string: `sum(ord(c) for c in sym)`
of main.py line 134 (`ord` yields the code point, `Char.toNat` likewise). -/
def codeSum (s : String) : Nat :=
  (s.data.map Char.toNat).sum

/-- The rsi value in integer tenths: `(sum(...) % 100) * 0.9` of main.py
line 134 equals `(codeSum s % 100) * 9` tenths. -/
def rsiTenths (s : String) : Nat :=
  (codeSum s % 100) * 9

/-- `rsi = (sum(ord(c) for c in sym) % 100) * 0.9` (main.py line 134). -/
def rsi (s : String) : ℚ :=
  (rsiTenths s : ℚ) / 10

/-- `sma_14 = 50 + (len(sym) * 2)` (main.py line 135); a Python int,
coerced to float by the `AnalysisInsight` schema. -/
def sma_14 (s : String) : ℚ :=
  ((50 + s.length * 2 : ℕ) : ℚ)

/-- `sma_14` in integer tenths, for one-decimal formatting. -/
def sma14Tenths (s : String) : Nat :=
  (50 + s.length * 2) * 10

/-- `signal = "buy" if rsi < 30 else ("sell" if rsi > 70 else "hold")`
(main.py line 136). -/
def signal (s : String) : String :=
  if rsi s < 30 then "buy" else if rsi s > 70 then "sell" else "hold"

/-- Renders `t` tenths as Python's `"%.1f"` does for the nonnegative
exact-tenth values arising here: integer part, a dot, one digit. -/
def fmtTenths (t : Nat) : String :=
  toString (t / 10) ++ "." ++ toString (t % 10)

/-- The response record of the analysis endpoint (schemas.py lines 77-82). -/
structure AnalysisInsight where
  symbol : String
  rsi : ℚ
  sma_14 : ℚ
  signal : String
  summary : String
deriving DecidableEq

/-- The request record of the analysis endpoint (schemas.py lines 73-75);
`language` defaults to "en". -/
structure AnalysisRequest where
  symbols : List String
  language : String := "en"
deriving DecidableEq

/-- The loop body of `analyze` (main.py lines 133-141) for one symbol:
computes rsi, sma_14 and signal, then builds the summary from the Arabic
f-string of line 138 when `language == "ar"` and from the English f-string
of line 140 otherwise. -/
def analyzeInsight (language : String) (sym : String) : AnalysisInsight :=
  let sig := signal sym
  let summary :=
    if language = "ar" then
      "تحليل " ++ sym ++ ": مؤشر القوة النسبية " ++ fmtTenths (rsiTenths sym) ++
        "، متوسط متحرك 14 يوم " ++ fmtTenths (sma14Tenths sym) ++ ". التوصية: " ++
        (if sig = "buy" then "شراء" else if sig = "sell" then "بيع" else "احتفاظ") ++ "."
    else
      sym ++ " analysis: RSI " ++ fmtTenths (rsiTenths sym) ++ ", 14-day SMA " ++
        fmtTenths (sma14Tenths sym) ++ ". Recommendation: " ++ sig ++ "."
  { symbol := sym, rsi := rsi sym, sma_14 := sma_14 sym, signal := sig,
    summary := summary }

/-- The analysis endpoint `analyze` (main.py lines 128-142): one insight per
requested symbol, in order. -/
def analyze (request : AnalysisRequest) : List AnalysisInsight :=
  request.symbols.map (analyzeInsight request.language)

/-- Following the spec's English template (§4.2 step 4) for comparison with
the code: symbol, " analysis: RSI ", rsi to one decimal, ", 14-day SMA ",
sma_14 to one decimal, ". Recommendation: ", the signal word, ".". -/
def specSummaryEn (sym : String) : String :=
  sym ++ " analysis: RSI " ++ fmtTenths (rsiTenths sym) ++ ", 14-day SMA " ++
    fmtTenths (sma14Tenths sym) ++ ". Recommendation: " ++ signal sym ++ "."

/-- Following the spec's Arabic recommendation mapping (§4.2 step 4):
"شراء" for buy, "بيع" for sell, "احتفاظ" for hold. -/
def specArWord (sig : String) : String :=
  if sig = "buy" then "شراء" else if sig = "sell" then "بيع" else "احتفاظ"

/-- Following the spec's Arabic template (§4.2 step 4) for comparison with
the code: the Arabic rendering of the same sentence, with the recommendation
word mapped from the computed signal by `specArWord`. -/
def specSummaryAr (sym : String) : String :=
  "تحليل " ++ sym ++ ": مؤشر القوة النسبية " ++ fmtTenths (rsiTenths sym) ++
    "، متوسط متحرك 14 يوم " ++ fmtTenths (sma14Tenths sym) ++ ". التوصية: " ++
    specArWord (signal sym) ++ "."

/-- C1: for every symbol, the signal is "buy" iff rsi < 30, "sell" iff
rsi > 70, and "hold" exactly on the remaining range 30 ≤ rsi ≤ 70, so the
boundary values rsi = 30 and rsi = 70 both yield "hold" (only the strict
inequalities trigger buy/sell). -/
theorem signal_thresholds (s : String) :
    (signal s = "buy" ↔ rsi s < 30) ∧
    (signal s = "sell" ↔ rsi s > 70) ∧
    (signal s = "hold" ↔ (30 ≤ rsi s ∧ rsi s ≤ 70)) := by
  unfold signal
  split_ifs with h1 h2
  · exact ⟨⟨fun _ => h1, fun _ => rfl⟩,
      ⟨fun h => absurd h (by decide), fun h => False.elim (by linarith)⟩,
      ⟨fun h => absurd h (by decide), fun h => False.elim (by linarith [h.1])⟩⟩
  · exact ⟨⟨fun h => absurd h (by decide), fun h => False.elim (by linarith)⟩,
      ⟨fun _ => h2, fun _ => rfl⟩,
      ⟨fun h => absurd h (by decide), fun h => False.elim (by linarith [h.2])⟩⟩
  · exact ⟨⟨fun h => absurd h (by decide), fun h => False.elim (h1 h)⟩,
      ⟨fun h => absurd h (by decide), fun h => False.elim (h2 h)⟩,
      ⟨fun _ => ⟨not_lt.mp h1, not_lt.mp h2⟩, fun _ => rfl⟩⟩

/-- C2 counterexample: the symbol "c" (single code point 99) has
rsi = 99 * 0.9 = 89.1 exactly, so rsi does not lie in the half-open
interval [0, 89.1): the right endpoint is attained. -/
theorem rsi_attains_endpoint : rsi "c" = 891 / 10 ∧ ¬ rsi "c" < 891 / 10 := by
  have h : rsi "c" = 891 / 10 := by
    unfold rsi
    norm_num [show rsiTenths "c" = 891 from rfl]
  exact ⟨h, by rw [h]; exact lt_irrefl _⟩

/-- C2 (amended): for every symbol, rsi equals (sum of code points mod 100)
times 0.9, and lies in the closed interval [0, 89.1] — in particular
0 ≤ rsi < 90.  (Purity and determinism are intrinsic: `rsi` is a function
of the symbol alone.) -/
theorem rsi_formula_range (s : String) :
    rsi s = ((codeSum s % 100 : ℕ) : ℚ) * (9 / 10) ∧
    0 ≤ rsi s ∧ rsi s ≤ 891 / 10 ∧ rsi s < 90 := by
  have hk : codeSum s % 100 < 100 := Nat.mod_lt _ (by norm_num)
  have hk99 : ((codeSum s % 100 : ℕ) : ℚ) ≤ 99 := by
    exact_mod_cast Nat.le_of_lt_succ hk
  have hk0 : (0 : ℚ) ≤ ((codeSum s % 100 : ℕ) : ℚ) := by positivity
  have h1 : rsi s = ((codeSum s % 100 : ℕ) : ℚ) * (9 / 10) := by
    unfold rsi rsiTenths
    push_cast
    ring
  refine ⟨h1, ?_, ?_, ?_⟩
  · rw [h1]; positivity
  · rw [h1]; linarith
  · rw [h1]; linarith

/-- C3: for every symbol, sma_14 equals 50 + 2 * length(symbol), and it is
integer-valued. -/
theorem sma14_formula (s : String) :
    sma_14 s = 50 + 2 * (s.length : ℚ) ∧ ∃ n : ℕ, sma_14 s = (n : ℚ) := by
  refine ⟨?_, ⟨50 + s.length * 2, rfl⟩⟩
  unfold sma_14
  push_cast
  ring

/-- C4: the analysis routine yields exactly one insight per input symbol, the
i-th insight is computed from the i-th symbol (so order is preserved and
duplicates are processed independently and identically), and an empty symbol
list yields the empty result for any language. -/
theorem analyze_per_symbol (req : AnalysisRequest) :
    (analyze req).length = req.symbols.length ∧
    (∀ i : ℕ, (analyze req)[i]? =
      (req.symbols[i]?).map (analyzeInsight req.language)) ∧
    analyze { symbols := [], language := req.language } = [] := by
  refine ⟨?_, ?_, rfl⟩
  · unfold analyze
    exact List.length_map _ _
  · intro i
    unfold analyze
    exact List.getElem?_map _ _ _

/-- C5: the summary is rendered from the Arabic template (with the signal
mapped to its Arabic word) exactly when the language is "ar", and from the
English template for every other language value (silent fallback). -/
theorem summary_language_selection (sym lang : String) :
    (lang = "ar" → (analyzeInsight lang sym).summary = specSummaryAr sym) ∧
    (lang ≠ "ar" → (analyzeInsight lang sym).summary = specSummaryEn sym) := by
  constructor
  · intro hl
    simp [analyzeInsight, specSummaryAr, specArWord, hl]
  · intro hl
    simp [analyzeInsight, specSummaryEn, hl]

/-- C10: the empty-string symbol is accepted by the analysis routine and
produces rsi = 0, sma_14 = 50, signal "buy", and the normally formatted
English insight. -/
theorem empty_symbol_insight :
    analyze { symbols := [""], language := "en" } =
      [{ symbol := "", rsi := 0, sma_14 := 50, signal := "buy",
         summary := " analysis: RSI 0.0, 14-day SMA 50.0. Recommendation: buy." }] := by
  have hr : rsi "" = 0 := by
    unfold rsi
    norm_num [show rsiTenths "" = 0 from rfl]
  have hsma : sma_14 "" = 50 := by
    unfold sma_14
    norm_num [show (50 + ("" : String).length * 2 : ℕ) = 50 from rfl]
  have hsig : signal "" = "buy" := by
    unfold signal
    rw [hr, if_pos (by norm_num : (0 : ℚ) < 30)]
  simp only [analyze, List.map, analyzeInsight, hsig, hr, hsma, reduceIte]
  decide

/-- Holding (schemas.py lines 49-52): quantity ≥ 0, avg_price ≥ 0. -/
structure Holding where
  symbol : String
  quantity : ℚ
  avg_price : ℚ
deriving DecidableEq

/-- Portfolio (schemas.py lines 54-57): holdings default to the empty list,
cash_sar defaults to 0 with cash_sar ≥ 0. -/
structure Portfolio where
  user_id : String
  holdings : List Holding
  cash_sar : ℚ
deriving DecidableEq

/-- Order (schemas.py lines 59-65): quantity > 0, price > 0, status
defaults to "submitted". -/
structure Order where
  user_id : String
  symbol : String
  side : String
  quantity : ℚ
  price : ℚ
  status : String
deriving DecidableEq

/-- Strategy (schemas.py lines 67-71); the untyped params mapping
(Dict[str, Any]) is modelled with string values, which the claims never
inspect. -/
structure Strategy where
  user_id : String
  name : String
  params : List (String × String)
  active : Bool
deriving DecidableEq

/-- Raw Holding input: all three fields are required in schemas.py, so none
is optional here; validation still has to check the numeric ranges. -/
structure HoldingInput where
  symbol : String
  quantity : ℚ
  avg_price : ℚ
deriving DecidableEq

/-- Pydantic validation of a Holding: `Field(..., ge=0)` on quantity and
avg_price (schemas.py lines 51-52). -/
def validateHolding (i : HoldingInput) : Except String Holding :=
  if i.quantity < 0 then .error "quantity: input should be >= 0"
  else if i.avg_price < 0 then .error "avg_price: input should be >= 0"
  else .ok { symbol := i.symbol, quantity := i.quantity, avg_price := i.avg_price }

/-- Raw Portfolio input: holdings and cash_sar carry defaults in schemas.py,
so an omitted field is `none` here. -/
structure PortfolioInput where
  user_id : String
  holdings : Option (List HoldingInput)
  cash_sar : Option ℚ
deriving DecidableEq

/-- Validates each element of a holdings list, propagating the first
failure, as pydantic does for `List[Holding]`. -/
def validateHoldings : List HoldingInput → Except String (List Holding)
  | [] => .ok []
  | h :: t =>
    match validateHolding h, validateHoldings t with
    | .ok v, .ok vs => .ok (v :: vs)
    | .error e, _ => .error e
    | .ok _, .error e => .error e

/-- Pydantic validation of a Portfolio (schemas.py lines 54-57): defaults
applied (empty holdings, cash_sar = 0), `ge=0` checked on cash_sar, nested
holdings validated. -/
def validatePortfolio (i : PortfolioInput) : Except String Portfolio :=
  let cash := i.cash_sar.getD 0
  if cash < 0 then .error "cash_sar: input should be >= 0"
  else
    match validateHoldings (i.holdings.getD []) with
    | .error e => .error e
    | .ok hs => .ok { user_id := i.user_id, holdings := hs, cash_sar := cash }

/-- Raw Order input: status has default "submitted" in schemas.py, the other
fields are required. -/
structure OrderInput where
  user_id : String
  symbol : String
  side : String
  quantity : ℚ
  price : ℚ
  status : Option String
deriving DecidableEq

/-- Pydantic validation of an Order: `Field(..., gt=0)` on quantity and
price, status defaulting to "submitted" (schemas.py lines 59-65). -/
def validateOrder (i : OrderInput) : Except String Order :=
  if i.quantity ≤ 0 then .error "quantity: input should be > 0"
  else if i.price ≤ 0 then .error "price: input should be > 0"
  else .ok { user_id := i.user_id, symbol := i.symbol, side := i.side,
             quantity := i.quantity, price := i.price,
             status := i.status.getD "submitted" }

/-- True exactly when validation succeeded. -/
def isAccepted {α : Type} : Except String α → Bool
  | .ok _ => true
  | .error _ => false

/-- A stored document: the three persisted entity kinds of main.py. -/
inductive Doc where
  | portfolio : Portfolio → Doc
  | order : Order → Doc
  | strategy : Strategy → Doc
deriving DecidableEq

/-- Modelled from the spec: the storage collaborator (`database.py`, holding
`db`, `create_document` and `get_documents`) is not among the repository's
files; per §6.2 it is an ordered document store keyed by collection name. -/
structure Store where
  docs : List (String × Doc)
deriving DecidableEq

/-- Modelled from the spec: `insert(collection, document) -> identifier`
(§6.2) — appends the document to the collection and returns an opaque string
identifier. -/
def create_document (st : Store) (collection : String) (d : Doc) :
    Store × String :=
  ({ docs := st.docs ++ [(collection, d)] }, toString st.docs.length)

/-- Modelled from the spec: `query(collection, filter, limit) -> ordered
sequence of document` (§6.2) — the filter is always empty at the call sites,
so only the collection and the limit remain. -/
def get_documents (st : Store) (collection : String) (limit : Nat) :
    List Doc :=
  ((st.docs.filter fun p => p.1 == collection).map fun p => p.2).take limit

/-- An endpoint outcome: a value, or an HTTPException with status code and
detail string. -/
inductive Resp (α : Type) where
  | ok : α → Resp α
  | httpError : Nat → String → Resp α
deriving DecidableEq

/-- POST /api/portfolio (main.py lines 72-77): 500 "Database not configured"
when db is None, otherwise insert and return the new id. -/
def create_portfolio (db : Option Store) (payload : Portfolio) :
    Resp (Store × String) :=
  match db with
  | none => .httpError 500 "Database not configured"
  | some st => .ok (create_document st "portfolio" (Doc.portfolio payload))

/-- GET /api/portfolio (main.py lines 79-88): 500 when db is None, otherwise
query up to `limit` portfolio documents. -/
def list_portfolios (db : Option Store) (limit : Nat := 20) :
    Resp (List Doc) :=
  match db with
  | none => .httpError 500 "Database not configured"
  | some st => .ok (get_documents st "portfolio" limit)

/-- POST /api/orders (main.py lines 91-96); the HTTP body also carries the
literal status "received", which no claim inspects. -/
def place_order (db : Option Store) (order : Order) : Resp (Store × String) :=
  match db with
  | none => .httpError 500 "Database not configured"
  | some st => .ok (create_document st "order" (Doc.order order))

/-- GET /api/orders (main.py lines 98-106). -/
def list_orders (db : Option Store) (limit : Nat := 50) : Resp (List Doc) :=
  match db with
  | none => .httpError 500 "Database not configured"
  | some st => .ok (get_documents st "order" limit)

/-- POST /api/strategies (main.py lines 109-114). -/
def create_strategy (db : Option Store) (strategy : Strategy) :
    Resp (Store × String) :=
  match db with
  | none => .httpError 500 "Database not configured"
  | some st => .ok (create_document st "strategy" (Doc.strategy strategy))

/-- GET /api/strategies (main.py lines 116-124). -/
def list_strategies (db : Option Store) (limit : Nat := 50) :
    Resp (List Doc) :=
  match db with
  | none => .httpError 500 "Database not configured"
  | some st => .ok (get_documents st "strategy" limit)

/-- POST /api/analysis (main.py lines 128-142): the handler never consults
db, so it succeeds whether or not the store is configured. -/
def analysis_endpoint (_db : Option Store) (request : AnalysisRequest) :
    Resp (List AnalysisInsight) :=
  .ok (analyze request)

/-- C6: with the store unconfigured (db = none), every persistence-backed
endpoint — POST and GET for portfolio, orders and strategies — fails fast
with the 500 "Database not configured" HTTPException, while the analysis
endpoint still succeeds, returning the computed insights. -/
theorem db_unconfigured (p : Portfolio) (o : Order) (stg : Strategy)
    (lim1 lim2 lim3 : Nat) (req : AnalysisRequest) :
    create_portfolio none p = .httpError 500 "Database not configured" ∧
    list_portfolios none lim1 = .httpError 500 "Database not configured" ∧
    place_order none o = .httpError 500 "Database not configured" ∧
    list_orders none lim2 = .httpError 500 "Database not configured" ∧
    create_strategy none stg = .httpError 500 "Database not configured" ∧
    list_strategies none lim3 = .httpError 500 "Database not configured" ∧
    analysis_endpoint none req = .ok (analyze req) :=
  ⟨rfl, rfl, rfl, rfl, rfl, rfl, rfl⟩

/-- C7: a Holding is accepted exactly when quantity ≥ 0 and avg_price ≥ 0,
and an Order exactly when quantity > 0 and price > 0; hence a Holding with
negative quantity and an Order with price = 0 are both rejected with a
validation error. -/
theorem validation_bounds (hi : HoldingInput) (oi : OrderInput) :
    (isAccepted (validateHolding hi) = true ↔
      0 ≤ hi.quantity ∧ 0 ≤ hi.avg_price) ∧
    (isAccepted (validateOrder oi) = true ↔
      0 < oi.quantity ∧ 0 < oi.price) := by
  constructor
  · unfold validateHolding
    split_ifs with h1 h2
    · simp only [isAccepted]
      exact iff_of_false (by simp) fun hc => absurd hc.1 (not_le.mpr h1)
    · simp only [isAccepted]
      exact iff_of_false (by simp) fun hc => absurd hc.2 (not_le.mpr h2)
    · simp only [isAccepted]
      exact iff_of_true (by simp) ⟨not_lt.mp h1, not_lt.mp h2⟩
  · unfold validateOrder
    split_ifs with h1 h2
    · simp only [isAccepted]
      exact iff_of_false (by simp) fun hc => absurd hc.1 (not_lt.mpr h1)
    · simp only [isAccepted]
      exact iff_of_false (by simp) fun hc => absurd hc.2 (not_lt.mpr h2)
    · simp only [isAccepted]
      exact iff_of_true (by simp) ⟨not_le.mp h1, not_le.mp h2⟩

/-- C8: a Portfolio document with empty holdings and cash_sar = 0 passes
validation and normalizes to the typed record; the same record also results
when both fields are omitted, since the empty list and 0 are the defaults. -/
theorem portfolio_boundary (uid : String) :
    validatePortfolio { user_id := uid, holdings := some [], cash_sar := some 0 } =
      .ok { user_id := uid, holdings := [], cash_sar := 0 } ∧
    validatePortfolio { user_id := uid, holdings := none, cash_sar := none } =
      .ok { user_id := uid, holdings := [], cash_sar := 0 } := by
  constructor
  · norm_num [validatePortfolio, validateHoldings]
  · norm_num [validatePortfolio, validateHoldings]

/-- C9: a valid Order input, normalized by validation (status defaulting to
"submitted" when omitted) and passed through the store's insert followed by
a query of the whole collection, is recovered with user_id, symbol, side,
quantity, price and status unchanged. -/
theorem order_roundtrip (st : Store) (i : OrderInput) (o : Order)
    (h : validateOrder i = Except.ok o) :
    o.user_id = i.user_id ∧ o.symbol = i.symbol ∧ o.side = i.side ∧
    o.quantity = i.quantity ∧ o.price = i.price ∧
    o.status = i.status.getD "submitted" ∧
    Doc.order o ∈ get_documents (create_document st "order" (Doc.order o)).1
      "order" (create_document st "order" (Doc.order o)).1.docs.length := by
  have hmem : ("order", Doc.order o) ∈ st.docs ++ [("order", Doc.order o)] :=
    List.mem_append_right _ (List.mem_singleton.mpr rfl)
  have hfil : ("order", Doc.order o) ∈
      (st.docs ++ [("order", Doc.order o)]).filter (fun p => p.1 == "order") :=
    List.mem_filter.mpr ⟨hmem, rfl⟩
  have hmap : Doc.order o ∈
      ((st.docs ++ [("order", Doc.order o)]).filter
        (fun p => p.1 == "order")).map (fun p => p.2) :=
    List.mem_map.mpr ⟨("order", Doc.order o), hfil, rfl⟩
  have hlen : (((st.docs ++ [("order", Doc.order o)]).filter
        fun p => p.1 == "order").map fun p => p.2).length ≤
      (st.docs ++ [("order", Doc.order o)]).length := by
    rw [List.length_map]
    exact List.length_filter_le _ _
  have hm : Doc.order o ∈ get_documents
      (create_document st "order" (Doc.order o)).1 "order"
      (create_document st "order" (Doc.order o)).1.docs.length := by
    unfold create_document get_documents
    rw [List.take_of_length_le hlen]
    exact hmap
  unfold validateOrder at h
  split_ifs at h with h1 h2
  all_goals
    first
      | exact Except.noConfusion h
      | (injection h with h3
         exact ⟨by rw [← h3], by rw [← h3], by rw [← h3], by rw [← h3],
           by rw [← h3], by rw [← h3], hm⟩)

/-- A concrete Order input for the round-trip witness: status omitted. -/
def sampleOrderInput : OrderInput :=
  { user_id := "u1", symbol := "2222", side := "buy", quantity := 5,
    price := 10, status := none }

/-- The normalized Order the witness expects back from validation. -/
def sampleOrder : Order :=
  { user_id := "u1", symbol := "2222", side := "buy", quantity := 5,
    price := 10, status := "submitted" }

/-- C9 witness: a concrete valid Order input round-trips through an empty
store with every field recovered, status defaulted to "submitted". -/
theorem order_roundtrip_witness :
    sampleOrder.user_id = sampleOrderInput.user_id ∧
    sampleOrder.symbol = sampleOrderInput.symbol ∧
    sampleOrder.side = sampleOrderInput.side ∧
    sampleOrder.quantity = sampleOrderInput.quantity ∧
    sampleOrder.price = sampleOrderInput.price ∧
    sampleOrder.status = sampleOrderInput.status.getD "submitted" ∧
    Doc.order sampleOrder ∈ get_documents
      (create_document { docs := [] } "order" (Doc.order sampleOrder)).1
      "order"
      (create_document { docs := [] } "order"
        (Doc.order sampleOrder)).1.docs.length :=
  order_roundtrip { docs := [] } sampleOrderInput sampleOrder
    (by norm_num [validateOrder, sampleOrderInput, sampleOrder])

end KSATrading
